import Mathlib

/-!
Verification of the nvml-gpu-ha repository (an NVIDIA GPU telemetry daemon
publishing to Home Assistant over MQTT).

Shallow embedding conventions:
- Go strings are modelled as lists of character codes (GoStr).  All strings
  handled by the claims are ASCII, where character codes and bytes coincide.
- Go library helpers (strings.Split, strings.Replace, strings.ToLower,
  strings.ToUpper, strings.HasPrefix, strings.TrimPrefix) are modelled for the
  single-separator ASCII cases the program uses.
- NVML calls are modelled by their returned data: an NvmlRet status plus the
  raw value, packaged per device in DeviceQueryResults.
- float64 metric values are modelled as rationals; float64 arithmetic on the
  values used here (integer milliwatts divided by 1000, percentages, memory
  sizes below 2 to the 53rd) is exact, so the rational model is faithful.
- MQTT publication is modelled by the list of (topic, payload) pairs a code
  path hands to the client.
-/

namespace NvmlGpuHa

/-- Model of a Go string: list of character codes (ASCII throughout). -/
abbrev GoStr := List Nat

/-- Embed a Lean string literal as a GoStr. -/
def strToGo (s : String) : GoStr := s.toList.map Char.toNat

/-- Model of strings.ToLower for ASCII characters (all inputs here are ASCII). -/
def toLowerB (b : Nat) : Nat := if 65 ≤ b ∧ b ≤ 90 then b + 32 else b

/-- Model of strings.ToUpper for ASCII characters. -/
def toUpperB (b : Nat) : Nat := if 97 ≤ b ∧ b ≤ 122 then b - 32 else b

def goToLower (s : GoStr) : GoStr := s.map toLowerB

def goToUpper (s : GoStr) : GoStr := s.map toUpperB

/-- Model of strings.Replace(s, old, new, -1) for one-character old and new. -/
def goReplaceAll (old new : Nat) (s : GoStr) : GoStr :=
  s.map (fun b => if b = old then new else b)

/-- Model of strings.Replace(s, old, "", -1) for a one-character old. -/
def goRemoveAll (old : Nat) (s : GoStr) : GoStr :=
  s.filter (fun b => b ≠ old)

def goSplitAux (sep : Nat) : GoStr → GoStr → List GoStr
  | [], cur => [cur.reverse]
  | b :: rest, cur =>
    if b = sep then cur.reverse :: goSplitAux sep rest []
    else goSplitAux sep rest (b :: cur)

/-- Model of strings.Split(s, sep) for a one-character separator. -/
def goSplit (sep : Nat) (s : GoStr) : List GoStr := goSplitAux sep s []

/-- Model of strings.HasPrefix(s, p). -/
def goHasPfx : GoStr → GoStr → Bool
  | _, [] => true
  | [], _ :: _ => false
  | b :: s, c :: p => b = c && goHasPfx s p

/-- Model of strings.TrimPrefix(s, p). -/
def goTrimPfx (s p : GoStr) : GoStr :=
  if goHasPfx s p then s.drop p.length else s

/-- Decimal digits of a natural number, as a GoStr: the decimal formatting the source applies to a nonnegative int. -/
def natDigits (n : Nat) : GoStr := (Nat.toDigits 10 n).map Char.toNat

/-- Static attributes of one GPU (pkg/nvidia GPUDevice).  The opaque NVML
handle is omitted; the data its queries return is modelled separately by
DeviceQueryResults. -/
structure GPUDevice where
  Index : Nat
  Name : GoStr
  PCIBusID : GoStr
  Memory : Nat
  UUID : GoStr
deriving DecidableEq

/-- GetShortPCIBusID from pkg/nvidia: formats 00000000:04:00.0 as 00:04:00.0. -/
def GetShortPCIBusID (pciBusID : GoStr) : GoStr :=
  let parts := goSplit (Char.toNat ':') pciBusID
  if 3 ≤ parts.length then
    let domain0 := parts.getD 0 []
    let domain := if 2 < domain0.length then domain0.drop (domain0.length - 2) else domain0
    domain ++ Char.toNat ':' :: parts.getD 1 [] ++ Char.toNat ':' :: parts.getD 2 []
  else pciBusID

/-- The UUID suffix computed inside GetDeviceID: hyphens removed, first 8
characters kept when longer than 8. -/
def uuidSfx (uuid : GoStr) : GoStr :=
  let s := goRemoveAll (Char.toNat '-') uuid
  if 8 < s.length then s.take 8 else s

/-- GetDeviceID from pkg/nvidia: short bus id with punctuation replaced by
underscores, underscore, UUID suffix, the whole lowercased. -/
def GetDeviceID (d : GPUDevice) : GoStr :=
  let shortPCIBusID := GetShortPCIBusID d.PCIBusID
  let deviceID := goReplaceAll (Char.toNat '.') (Char.toNat '_')
    (goReplaceAll (Char.toNat ':') (Char.toNat '_') shortPCIBusID)
  goToLower (deviceID ++ Char.toNat '_' :: uuidSfx d.UUID)

/-- Rounding the source applies when formatting float64(mem) / 2^30 with zero decimals: round to nearest,
ties to even.  Exact for mem below 2 to the 53rd, i.e. all real memory sizes. -/
def roundGB (mem : Nat) : Nat :=
  let q := mem / 1073741824
  let r := mem % 1073741824
  if 536870912 < r then q + 1
  else if r < 536870912 then q
  else if q % 2 = 0 then q else q + 1

/-- GetDeviceDisplayName from pkg/nvidia:
hostname, short bus id, vendor literal, model name (exact prefix trimmed when
the uppercased name starts with the vendor word), rounded gigabytes. -/
def GetDeviceDisplayName (d : GPUDevice) (hostname : GoStr) : GoStr :=
  let modelName :=
    if goHasPfx (goToUpper d.Name) (strToGo ("NVIDIA ")) then
      goTrimPfx d.Name (strToGo ("NVIDIA "))
    else d.Name
  hostname ++ Char.toNat ' ' :: GetShortPCIBusID d.PCIBusID
    ++ strToGo (" - NVIDIA ") ++ modelName
    ++ Char.toNat ' ' :: natDigits (roundGB d.Memory) ++ strToGo ("GB")

/-- Outcome of one NVML call (nvml.Return): success, the distinguished
ERROR_NOT_SUPPORTED, or any other failure code. -/
inductive NvmlRet
  | success
  | notSupported
  | otherError
deriving DecidableEq

/-- One sampled metric set (pkg/nvidia GPUMetrics).  Go zero values appear for
fields their query left unset. -/
structure GPUMetrics where
  PowerDraw : ℚ
  PerformanceLevel : GoStr
  MemoryUsage : ℚ
  GPUUtilization : Int
  MemoryUtilization : Int
  Temperature : Int
deriving DecidableEq

/-- The Go zero value GPUMetrics{} that getGPUMetricsInternal starts from. -/
def emptyMetrics : GPUMetrics := ⟨0, [], 0, 0, 0, 0⟩

/-- Data returned by the five NVML queries of getGPUMetricsInternal for one
device: status plus raw value(s).  power is milliwatts; mem is (Used, Total)
bytes; util is (Gpu, Memory) percentages. -/
structure DeviceQueryResults where
  power : NvmlRet × Nat
  perfState : NvmlRet × Nat
  mem : NvmlRet × Nat × Nat
  util : NvmlRet × Nat × Nat
  temp : NvmlRet × Nat
deriving DecidableEq

/-- Power block of getGPUMetricsInternal: on success store watts, on
ERROR_NOT_SUPPORTED skip, otherwise fail the whole sample. -/
def powerStep (r : NvmlRet × Nat) (m : GPUMetrics) : Except GoStr GPUMetrics :=
  match r with
  | (NvmlRet.success, v) => Except.ok { m with PowerDraw := (v : ℚ) / 1000 }
  | (NvmlRet.notSupported, _) => Except.ok m
  | (NvmlRet.otherError, _) => Except.error (strToGo ("failed to get power usage"))

/-- Performance-state block of getGPUMetricsInternal. -/
def perfStep (r : NvmlRet × Nat) (m : GPUMetrics) : Except GoStr GPUMetrics :=
  match r with
  | (NvmlRet.success, v) => Except.ok { m with PerformanceLevel := Char.toNat 'P' :: natDigits v }
  | (NvmlRet.notSupported, _) => Except.ok m
  | (NvmlRet.otherError, _) => Except.error (strToGo ("failed to get performance state"))

/-- Memory block of getGPUMetricsInternal: any non-success status (including
ERROR_NOT_SUPPORTED) fails the whole sample. -/
def memStep (r : NvmlRet × Nat × Nat) (m : GPUMetrics) : Except GoStr GPUMetrics :=
  match r with
  | (NvmlRet.success, used, total) =>
    Except.ok { m with MemoryUsage := (used : ℚ) / (total : ℚ) * 100 }
  | (_, _, _) => Except.error (strToGo ("failed to get memory info"))

/-- Utilization block of getGPUMetricsInternal. -/
def utilStep (r : NvmlRet × Nat × Nat) (m : GPUMetrics) : Except GoStr GPUMetrics :=
  match r with
  | (NvmlRet.success, gpu, memu) =>
    Except.ok { m with GPUUtilization := (gpu : Int), MemoryUtilization := (memu : Int) }
  | (NvmlRet.notSupported, _, _) => Except.ok m
  | (NvmlRet.otherError, _, _) => Except.error (strToGo ("failed to get utilization rates"))

/-- Temperature block of getGPUMetricsInternal. -/
def tempStep (r : NvmlRet × Nat) (m : GPUMetrics) : Except GoStr GPUMetrics :=
  match r with
  | (NvmlRet.success, v) => Except.ok { m with Temperature := (v : Int) }
  | (NvmlRet.notSupported, _) => Except.ok m
  | (NvmlRet.otherError, _) => Except.error (strToGo ("failed to get temperature"))

/-- getGPUMetricsInternal from pkg/nvidia: the five query blocks in source
order, each early return modelled by Except error propagation. -/
def getGPUMetricsInternal (q : DeviceQueryResults) : Except GoStr GPUMetrics :=
  (powerStep q.power emptyMetrics).bind (fun m1 =>
  (perfStep q.perfState m1).bind (fun m2 =>
  (memStep q.mem m2).bind (fun m3 =>
  (utilStep q.util m3).bind (fun m4 =>
  tempStep q.temp m4))))

/-- A JSON-serialized MQTT payload (json.Marshal of the sensor value). -/
inductive Payload
  | num (q : ℚ)
  | str (s : GoStr)
  | int (i : Int)
deriving DecidableEq

/-- State topic built by publishMetrics in the main package. -/
def publishStateTopic (deviceID sensor : GoStr) : GoStr :=
  strToGo ("homeassistant/sensor/nvml-gpu/") ++ deviceID
    ++ Char.toNat '_' :: sensor ++ strToGo ("/state")

/-- The sensors map of publishMetrics: key and serialized value for each of
the 5 published metrics (MemoryUtilization is not among them).  The Go map
iteration order is unspecified; the claims here are insensitive to order and
this list fixes the source declaration order. -/
def publishedSensors (m : GPUMetrics) : List (GoStr × Payload) :=
  [ (strToGo ("power_draw"), Payload.num m.PowerDraw),
    (strToGo ("performance_level"), Payload.str m.PerformanceLevel),
    (strToGo ("memory_usage"), Payload.num m.MemoryUsage),
    (strToGo ("gpu_utilization"), Payload.int m.GPUUtilization),
    (strToGo ("temperature"), Payload.int m.Temperature) ]

/-- publishMetrics from the main package: one (topic, payload) message per
entry of the sensors map. -/
def publishMetrics (d : GPUDevice) (m : GPUMetrics) : List (GoStr × Payload) :=
  (publishedSensors m).map (fun p => (publishStateTopic (GetDeviceID d) p.1, p.2))

/-- The per-device body of the monitorGPUs cycle: on a metrics error nothing
is published for the device; on success publishMetrics runs. -/
def monitorDeviceTask (d : GPUDevice) (q : DeviceQueryResults) : List (GoStr × Payload) :=
  match getGPUMetricsInternal q with
  | Except.error _ => []
  | Except.ok m => publishMetrics d m

/-- The fixed 5-metric set registered and published per device. -/
inductive SensorMetric
  | power_draw
  | performance_level
  | memory_usage
  | gpu_utilization
  | temperature
deriving DecidableEq

/-- MQTT key of each metric; the same strings appear in the discovery table of
RegisterGPUSensors and in the sensors map of publishMetrics. -/
def metricKey : SensorMetric → GoStr
  | SensorMetric.power_draw => strToGo ("power_draw")
  | SensorMetric.performance_level => strToGo ("performance_level")
  | SensorMetric.memory_usage => strToGo ("memory_usage")
  | SensorMetric.gpu_utilization => strToGo ("gpu_utilization")
  | SensorMetric.temperature => strToGo ("temperature")

/-- Human sensor label from the discovery table. -/
def metricName : SensorMetric → GoStr
  | SensorMetric.power_draw => strToGo ("Power Draw")
  | SensorMetric.performance_level => strToGo ("Performance Level")
  | SensorMetric.memory_usage => strToGo ("VRAM Usage")
  | SensorMetric.gpu_utilization => strToGo ("GPU Utilization")
  | SensorMetric.temperature => strToGo ("GPU Temperature")

/-- device_class column of the discovery table. -/
def metricDeviceClass : SensorMetric → GoStr
  | SensorMetric.power_draw => strToGo ("power")
  | SensorMetric.temperature => strToGo ("temperature")
  | _ => []

/-- unit column of the discovery table. -/
def metricUnit : SensorMetric → GoStr
  | SensorMetric.power_draw => strToGo ("W")
  | SensorMetric.performance_level => []
  | SensorMetric.memory_usage => strToGo ("%")
  | SensorMetric.gpu_utilization => strToGo ("%")
  | SensorMetric.temperature => strToGo ("°C")

/-- icon column of the discovery table. -/
def metricIcon : SensorMetric → GoStr
  | SensorMetric.power_draw => strToGo ("mdi:lightning-bolt")
  | SensorMetric.performance_level => strToGo ("mdi:speedometer")
  | SensorMetric.memory_usage => strToGo ("mdi:memory")
  | SensorMetric.gpu_utilization => strToGo ("mdi:chip")
  | SensorMetric.temperature => strToGo ("mdi:thermometer")

/-- state_class column of the discovery table. -/
def metricStateClass : SensorMetric → GoStr
  | SensorMetric.performance_level => []
  | _ => strToGo ("measurement")

/-- template column of the discovery table. -/
def metricTemplate : SensorMetric → GoStr
  | SensorMetric.memory_usage => strToGo ("\x7b\x7b value | round(1) \x7d\x7d")
  | _ => []

/-- The order of the sensors slice in RegisterGPUSensors (and of the sensors
map literal in publishMetrics). -/
def sensorOrder : List SensorMetric :=
  [ SensorMetric.power_draw, SensorMetric.performance_level,
    SensorMetric.memory_usage, SensorMetric.gpu_utilization,
    SensorMetric.temperature ]

/-- Device block of a Home Assistant discovery document (pkg/homeassistant). -/
structure DeviceInfo where
  Identifiers : List GoStr
  Name : GoStr
  Model : GoStr
  Manufacturer : GoStr
  SwVersion : GoStr
deriving DecidableEq

/-- A Home Assistant sensor discovery document (pkg/homeassistant
SensorConfig).  Optional JSON fields are the empty string when absent. -/
structure SensorConfig where
  Name : GoStr
  StateTopic : GoStr
  UniqueID : GoStr
  DeviceClass : GoStr
  UnitOfMeasurement : GoStr
  Icon : GoStr
  Device : DeviceInfo
  AvailabilityTopic : GoStr
  PayloadAvailable : GoStr
  PayloadNotAvailable : GoStr
  ValueTemplate : GoStr
  StateClass : GoStr
  ForceUpdate : Bool
deriving DecidableEq

/-- state topic built inside registerSensor (pkg/homeassistant). -/
def registerSensorStateTopic (deviceID sensorKey : GoStr) : GoStr :=
  strToGo ("homeassistant/sensor/nvml-gpu/") ++ deviceID
    ++ Char.toNat '_' :: sensorKey ++ strToGo ("/state")

/-- config topic built inside registerSensor. -/
def registerSensorConfigTopic (deviceID sensorKey : GoStr) : GoStr :=
  strToGo ("homeassistant/sensor/nvml-gpu/") ++ deviceID
    ++ Char.toNat '_' :: sensorKey ++ strToGo ("/config")

/-- unique_id built inside registerSensor. -/
def registerSensorUniqueID (deviceID sensorKey : GoStr) : GoStr :=
  strToGo ("nvml_gpu_") ++ deviceID ++ Char.toNat '_' :: sensorKey

/-- The SensorConfig document registerSensor marshals and publishes, with the
availability triple present exactly when MQTTLWTEnable is set. -/
def registerSensorConfig (deviceID sensorKey sensorName deviceClass unit icon
    stateClass template : GoStr) (deviceInfo : DeviceInfo) (lwtEnable : Bool) :
    SensorConfig :=
  { Name := sensorName
    StateTopic := registerSensorStateTopic deviceID sensorKey
    UniqueID := registerSensorUniqueID deviceID sensorKey
    DeviceClass := deviceClass
    UnitOfMeasurement := unit
    Icon := icon
    Device := deviceInfo
    AvailabilityTopic := if lwtEnable then strToGo ("homeassistant/sensor/nvml-gpu-ha/availability") else []
    PayloadAvailable := if lwtEnable then strToGo ("online") else []
    PayloadNotAvailable := if lwtEnable then strToGo ("offline") else []
    ValueTemplate := template
    StateClass := stateClass
    ForceUpdate := true }

/-- The DeviceInfo block RegisterGPUSensors builds for one device. -/
def deviceInfoFor (d : GPUDevice) (hostname : GoStr) : DeviceInfo :=
  { Identifiers := [GetDeviceID d, d.UUID]
    Name := GetDeviceDisplayName d hostname
    Model := d.Name
    Manufacturer := strToGo ("NVIDIA")
    SwVersion := strToGo ("NVML") }

/-- The discovery document RegisterGPUSensors publishes for one metric of one
device. -/
def discoveryDoc (d : GPUDevice) (hostname : GoStr) (lwtEnable : Bool)
    (m : SensorMetric) : SensorConfig :=
  registerSensorConfig (GetDeviceID d) (metricKey m) (metricName m)
    (metricDeviceClass m) (metricUnit m) (metricIcon m) (metricStateClass m)
    (metricTemplate m) (deviceInfoFor d hostname) lwtEnable

/-- The registration loop of RegisterGPUSensors.  ok says whether the config
publish of a given sensor succeeds.  Returns the sensors whose registration
was attempted, and whether the whole call succeeded; the source returns an
error as soon as one registerSensor call fails. -/
def registerGPUSensorsRun (ok : SensorMetric → Bool) :
    List SensorMetric → List SensorMetric × Bool
  | [] => ([], true)
  | s :: rest =>
    if ok s then
      let r := registerGPUSensorsRun ok rest
      (s :: r.1, r.2)
    else ([s], false)

/-- RegisterGPUSensors for one device, as the attempts over the fixed sensor
table. -/
def RegisterGPUSensors (ok : SensorMetric → Bool) : List SensorMetric × Bool :=
  registerGPUSensorsRun ok sensorOrder

/-- A publish-failure pattern that fails exactly the power_draw sensor. -/
def okFailPower : SensorMetric → Bool
  | SensorMetric.power_draw => false
  | _ => true

/-- Scheduler state of monitorGPUs in the main package: the isMonitoring
flag and the lastMonitorTime completion timestamp (nanoseconds, as a Go
monotonic time.Time). -/
structure SchedState where
  isMonitoring : Bool
  lastMonitorTime : Nat
deriving DecidableEq

/-- The skip threshold time.Duration(cfg.PollingPeriod/2)*time.Second in
nanoseconds: integer division by 2 happens on whole seconds. -/
def minIntervalNs (pollingPeriod : Nat) : Nat := pollingPeriod / 2 * 1000000000

/-- One monitorGPUs invocation, atomic because the source holds
monitoringMutex for the whole function body.  now is the invocation time and
dur the cycle duration; returns the state when the call returns and whether a
sampling cycle ran. -/
def tickStep (pollingPeriod : Nat) (s : SchedState) (now dur : Nat) :
    SchedState × Bool :=
  if s.isMonitoring then (s, false)
  else if now - s.lastMonitorTime < minIntervalNs pollingPeriod then (s, false)
  else ({ isMonitoring := false, lastMonitorTime := now + dur }, true)

/-- The main loop: ticks are handled one after another (the select loop calls
monitorGPUs synchronously), so each tick is processed no earlier than the
requested ticker time and no earlier than the end of the previous handling.
Returns the (start, end) intervals of the sampling cycles that ran. -/
def runTicks (pollingPeriod : Nat) :
    SchedState → Nat → List (Nat × Nat) → List (Nat × Nat)
  | _, _, [] => []
  | s, free, (req, dur) :: rest =>
    let now := max req free
    let r := tickStep pollingPeriod s now dur
    if r.2 then (now, now + dur) :: runTicks pollingPeriod r.1 (now + dur) rest
    else runTicks pollingPeriod r.1 now rest

/-- Fixture: the end-to-end scenario device of the spec (bus 00000000:04:00.0,
hardware id GPU-1a2b3c4d-..., a representative model and 10 GiB of memory). -/
def c1Device : GPUDevice :=
  ⟨0, strToGo ("GeForce RTX 3080"), strToGo ("00000000:04:00.0"), 10737418240,
    strToGo ("GPU-1a2b3c4d-5e6f-7890-abcd-ef1234567890")⟩

/-- Fixture: two devices sharing a bus location and the first 8 characters of
their hyphen-stripped hardware ids, but with different hardware ids. -/
def d7a : GPUDevice := ⟨0, [], strToGo ("00000000:04:00.0"), 0, strToGo ("GPU-12345678-AAAA")⟩

/-- Fixture: second device of the colliding pair. -/
def d7b : GPUDevice := ⟨1, [], strToGo ("00000000:04:00.0"), 0, strToGo ("GPU-12345678-BBBB")⟩

/-- Fixture: a device whose id suffix genuinely differs from d7a. -/
def d7c : GPUDevice := ⟨2, [], strToGo ("00000000:04:00.0"), 0, strToGo ("GPU-87654321-AAAA")⟩

/-- Fixture: a device whose hardware id contains a colon and a dot. -/
def d8bad : GPUDevice := ⟨0, [], strToGo ("00000000:04:00.0"), 0, strToGo (":.")⟩

/-- Fixture: a device with a well-formed hardware id. -/
def d8w : GPUDevice := ⟨0, [], strToGo ("00000000:04:00.0"), 0, strToGo ("GPU-ABCD")⟩

/-- Fixture: a device whose model name carries the vendor word in lowercase. -/
def d9bad : GPUDevice :=
  ⟨0, strToGo ("nvidia GeForce"), strToGo ("00000000:04:00.0"), 0, strToGo ("GPU-1")⟩

/-- Fixture: a device whose model name carries the vendor word exactly as
NVIDIA in uppercase. -/
def d9w : GPUDevice :=
  ⟨0, strToGo ("NVIDIA GeForce RTX 3080"), strToGo ("00000000:04:00.0"), 10737418240,
    strToGo ("GPU-1a2b3c4d")⟩

/-- Fixture: query results where only the power query reports
ERROR_NOT_SUPPORTED and everything else succeeds. -/
def qC3 : DeviceQueryResults :=
  ⟨(NvmlRet.notSupported, 0), (NvmlRet.success, 2), (NvmlRet.success, 0, 1024),
    (NvmlRet.success, 7, 9), (NvmlRet.success, 55)⟩

/-- Fixture: query results where power, performance state, utilization and
temperature report ERROR_NOT_SUPPORTED while memory succeeds. -/
def qC3w : DeviceQueryResults :=
  ⟨(NvmlRet.notSupported, 0), (NvmlRet.notSupported, 0), (NvmlRet.success, 0, 1024),
    (NvmlRet.notSupported, 0, 0), (NvmlRet.notSupported, 0)⟩

/-- The metric record qC3w produces. -/
def mC3w : GPUMetrics :=
  { emptyMetrics with MemoryUsage := ((0 : Nat) : ℚ) / ((1024 : Nat) : ℚ) * 100 }

/-- Fixture: query results whose memory query fails while all others succeed. -/
def qMemFail : DeviceQueryResults :=
  ⟨(NvmlRet.success, 100), (NvmlRet.success, 2), (NvmlRet.notSupported, 0, 1024),
    (NvmlRet.success, 7, 9), (NvmlRet.success, 55)⟩

/-- The registration loop attempts exactly the sensors up to and including the
first failing one, and succeeds exactly when none fails. -/
theorem registerGPUSensorsRun_eq (ok : SensorMetric → Bool) (l : List SensorMetric) :
    registerGPUSensorsRun ok l =
      (l.takeWhile ok ++ (l.dropWhile ok).take 1, (l.dropWhile ok).isEmpty) := by
  induction l with
  | nil => rfl
  | cons s rest ih =>
    by_cases h : ok s
    · simp [registerGPUSensorsRun, h, List.takeWhile_cons, List.dropWhile_cons, ih]
    · simp [registerGPUSensorsRun, h, List.takeWhile_cons, List.dropWhile_cons]

/-- C2 (counterexample): when the power_draw registration fails, the
temperature sensor of the same device is never attempted, although it belongs
to the fixed 5-metric set. -/
theorem c2_counterexample :
    SensorMetric.temperature ∈ sensorOrder ∧
    SensorMetric.temperature ∉ (RegisterGPUSensors okFailPower).1 := by decide

/-- C2 (amended): RegisterGPUSensors attempts the sensors of the fixed table
in order only up to and including the first one whose publish fails, skipping
the remaining sensors of that device, and returns success exactly when every
sensor registers. -/
theorem c2_amended (ok : SensorMetric → Bool) :
    (RegisterGPUSensors ok).1 =
      sensorOrder.takeWhile ok ++ (sensorOrder.dropWhile ok).take 1 ∧
    (RegisterGPUSensors ok).2 = (sensorOrder.dropWhile ok).isEmpty := by
  unfold RegisterGPUSensors
  rw [registerGPUSensorsRun_eq]
  exact ⟨rfl, rfl⟩

/-- C6 (confirmed): the state_topic field of every published discovery
document equals, character for character, the topic publishMetrics later
publishes that (device, metric) pair to; and the topics publishMetrics
produces are exactly those of the 5 metric keys. -/
theorem c6_state_topic_round_trip :
    (∀ (d : GPUDevice) (hostname : GoStr) (lwtEnable : Bool) (m : SensorMetric),
      (discoveryDoc d hostname lwtEnable m).StateTopic =
        publishStateTopic (GetDeviceID d) (metricKey m)) ∧
    (∀ (d : GPUDevice) (gm : GPUMetrics),
      (publishMetrics d gm).map Prod.fst =
        sensorOrder.map (fun m => publishStateTopic (GetDeviceID d) (metricKey m))) :=
  ⟨fun _ _ _ _ => rfl, fun _ _ => rfl⟩

/-- C10 (confirmed): with fewer than 3 colon-separated segments,
GetShortPCIBusID returns its input unchanged. -/
theorem c10_malformed_bus_id_identity (s : GoStr)
    (h : (goSplit (Char.toNat ':') s).length < 3) : GetShortPCIBusID s = s := by
  have h3 : ¬ 3 ≤ (goSplit (Char.toNat ':') s).length := by omega
  simp only [GetShortPCIBusID, if_neg h3]

/-- C10 (witness): a segment-free bus string is returned unchanged. -/
theorem c10_malformed_bus_id_identity_witness :
    GetShortPCIBusID (strToGo ("0000")) = strToGo ("0000") :=
  c10_malformed_bus_id_identity (strToGo ("0000")) (by decide)

/-- Every sampling interval produced by the serial tick loop starts no earlier
than the free time the loop entered with. -/
theorem runTicks_start_ge (p : Nat) :
    ∀ (ts : List (Nat × Nat)) (s : SchedState) (free : Nat),
      ∀ x ∈ runTicks p s free ts, free ≤ x.1 := by
  intro ts
  induction ts with
  | nil => intro s free x hx; simp [runTicks] at hx
  | cons td rest ih =>
    intro s free x hx
    rcases td with ⟨req, dur⟩
    simp only [runTicks] at hx
    by_cases hs : (tickStep p s (max req free) dur).2
    · rw [if_pos hs] at hx
      rcases List.mem_cons.mp hx with h | h
      · rw [h]
        exact Nat.le_max_right req free
      · calc free ≤ max req free := Nat.le_max_right req free
          _ ≤ max req free + dur := Nat.le_add_right _ _
          _ ≤ x.1 := ih _ _ x h
    · rw [if_neg hs] at hx
      exact Nat.le_trans (Nat.le_max_right req free) (ih _ _ x hx)

/-- C4 (amended): a tick that finds a cycle in progress, or that fires before
floor(pollingPeriod / 2) whole seconds have elapsed since the previous
completion, is a no-op leaving the state unchanged; and the serial loop never
runs two sampling cycles whose intervals overlap (every cycle ends no later
than the next one starts). -/
theorem c4_amended :
    (∀ (p : Nat) (s : SchedState) (now dur : Nat),
      s.isMonitoring = true ∨ now - s.lastMonitorTime < minIntervalNs p →
      tickStep p s now dur = (s, false)) ∧
    (∀ (p : Nat) (s : SchedState) (free : Nat) (ts : List (Nat × Nat)),
      (runTicks p s free ts).Pairwise (fun a b => a.2 ≤ b.1)) := by
  constructor
  · intro p s now dur h
    by_cases hm : s.isMonitoring
    · simp [tickStep, hm]
    · rcases h with h | h
      · exact absurd h hm
      · simp [tickStep, hm, h]
  · intro p s free ts
    induction ts generalizing s free with
    | nil => simp [runTicks]
    | cons td rest ih =>
      rcases td with ⟨req, dur⟩
      simp only [runTicks]
      by_cases hs : (tickStep p s (max req free) dur).2
      · rw [if_pos hs]
        exact List.Pairwise.cons
          (fun y hy => runTicks_start_ge p rest _ (max req free + dur) y hy)
          (ih _ _)
      · rw [if_neg hs]
        exact ih _ _

/-- C4 (witness): a tick arriving while a cycle is in progress is a no-op. -/
theorem c4_amended_witness :
    tickStep 30 ⟨true, 0⟩ 5 7 = (⟨true, 0⟩, false) :=
  c4_amended.1 30 ⟨true, 0⟩ 5 7 (Or.inl rfl)

/-- C4 (counterexample): with a 31-second polling period, a tick firing 15.2
seconds after the previous completion has seen less than half the polling
interval elapse (15.2 s < 15.5 s), yet a sampling cycle starts, because the
source compares against floor(31 / 2) = 15 whole seconds. -/
theorem c4_counterexample :
    2 * (15200000000 - 0) < 31 * 1000000000 ∧
    (tickStep 31 ⟨false, 0⟩ 15200000000 1000).2 = true := by decide

/-- Any non-success memory status makes the memory block fail the sample. -/
theorem memStep_fails (mr : NvmlRet) (mu mt : Nat) (m : GPUMetrics)
    (h : mr ≠ NvmlRet.success) :
    memStep (mr, mu, mt) m = Except.error (strToGo ("failed to get memory info")) := by
  cases mr
  · exact absurd rfl h
  · rfl
  · rfl

/-- C5 (confirmed): when the memory-info query of a device does not succeed,
the whole sample fails and the per-device task publishes nothing that cycle. -/
theorem c5_memory_failure_all_or_nothing (d : GPUDevice) (q : DeviceQueryResults)
    (h : q.mem.1 ≠ NvmlRet.success) : monitorDeviceTask d q = [] := by
  obtain ⟨e, he⟩ : ∃ e, getGPUMetricsInternal q = Except.error e := by
    unfold getGPUMetricsInternal
    rcases hm : q.mem with ⟨mr, mu, mt⟩
    rw [hm] at h
    simp only at h
    rcases hp : powerStep q.power emptyMetrics with e | m1
    · exact ⟨e, rfl⟩
    · simp only [Except.bind]
      rcases hf : perfStep q.perfState m1 with e | m2
      · exact ⟨e, rfl⟩
      · simp only [Except.bind]
        rw [memStep_fails mr mu mt m2 h]
        exact ⟨strToGo ("failed to get memory info"), rfl⟩
  unfold monitorDeviceTask
  rw [he]

/-- C5 (witness): a device whose memory query reports ERROR_NOT_SUPPORTED
publishes no state topic that cycle. -/
theorem c5_memory_failure_all_or_nothing_witness :
    monitorDeviceTask c1Device qMemFail = [] :=
  c5_memory_failure_all_or_nothing c1Device qMemFail (by decide)

/-- The performance-state block never changes PowerDraw. -/
theorem perfStep_powerDraw {r : NvmlRet × Nat} {m m2 : GPUMetrics}
    (h : perfStep r m = Except.ok m2) : m2.PowerDraw = m.PowerDraw := by
  rcases r with ⟨ret, v⟩
  cases ret
  · simp only [perfStep] at h
    injection h with h2
    rw [← h2]
  · simp only [perfStep] at h
    injection h with h2
    rw [← h2]
  · simp only [perfStep] at h
    cases h

/-- The memory block never changes PowerDraw. -/
theorem memStep_powerDraw {r : NvmlRet × Nat × Nat} {m m2 : GPUMetrics}
    (h : memStep r m = Except.ok m2) : m2.PowerDraw = m.PowerDraw := by
  rcases r with ⟨ret, mu, mt⟩
  cases ret
  · simp only [memStep] at h
    injection h with h2
    rw [← h2]
  · simp only [memStep] at h
    cases h
  · simp only [memStep] at h
    cases h

/-- The utilization block never changes PowerDraw. -/
theorem utilStep_powerDraw {r : NvmlRet × Nat × Nat} {m m2 : GPUMetrics}
    (h : utilStep r m = Except.ok m2) : m2.PowerDraw = m.PowerDraw := by
  rcases r with ⟨ret, gu, mu⟩
  cases ret
  · simp only [utilStep] at h
    injection h with h2
    rw [← h2]
  · simp only [utilStep] at h
    injection h with h2
    rw [← h2]
  · simp only [utilStep] at h
    cases h

/-- The temperature block never changes PowerDraw. -/
theorem tempStep_powerDraw {r : NvmlRet × Nat} {m m2 : GPUMetrics}
    (h : tempStep r m = Except.ok m2) : m2.PowerDraw = m.PowerDraw := by
  rcases r with ⟨ret, v⟩
  cases ret
  · simp only [tempStep] at h
    injection h with h2
    rw [← h2]
  · simp only [tempStep] at h
    injection h with h2
    rw [← h2]
  · simp only [tempStep] at h
    cases h

/-- C3 (counterexample): a device whose power query reports
ERROR_NOT_SUPPORTED still gets a power_draw state message this cycle, carrying
the sentinel zero value, instead of the metric being omitted. -/
theorem c3_counterexample :
    qC3.power.1 = NvmlRet.notSupported ∧
    (monitorDeviceTask c1Device qC3).head? =
      some (publishStateTopic (GetDeviceID c1Device) (strToGo ("power_draw")),
        Payload.num 0) :=
  ⟨rfl, rfl⟩

/-- C3 (amended): on a successful sample all 5 metrics are published, one
state message per metric key, whether or not a metric was supported; a metric
whose query reported ERROR_NOT_SUPPORTED is published with its zero value
(shown for power draw) rather than omitted. -/
theorem c3_amended (d : GPUDevice) (q : DeviceQueryResults) (m : GPUMetrics)
    (h : getGPUMetricsInternal q = Except.ok m) :
    (monitorDeviceTask d q).map Prod.fst =
      sensorOrder.map (fun mt => publishStateTopic (GetDeviceID d) (metricKey mt)) ∧
    (q.power.1 = NvmlRet.notSupported → m.PowerDraw = 0) := by
  constructor
  · unfold monitorDeviceTask
    rw [h]
    rfl
  · intro hp
    unfold getGPUMetricsInternal at h
    rcases hq : q.power with ⟨pr, pv⟩
    rw [hq] at h hp
    simp only at hp
    rw [hp] at h
    simp only [powerStep, Except.bind] at h
    rcases hf : perfStep q.perfState emptyMetrics with e | m2
    · rw [hf] at h
      simp only [Except.bind] at h
      cases h
    · rw [hf] at h
      simp only [Except.bind] at h
      rcases hmem : memStep q.mem m2 with e | m3
      · rw [hmem] at h
        simp only [Except.bind] at h
        cases h
      · rw [hmem] at h
        simp only [Except.bind] at h
        rcases hu : utilStep q.util m3 with e | m4
        · rw [hu] at h
          simp only [Except.bind] at h
          cases h
        · rw [hu] at h
          simp only [Except.bind] at h
          calc m.PowerDraw = m4.PowerDraw := by rw [tempStep_powerDraw h]
            _ = m3.PowerDraw := utilStep_powerDraw hu
            _ = m2.PowerDraw := memStep_powerDraw hmem
            _ = emptyMetrics.PowerDraw := perfStep_powerDraw hf
            _ = 0 := rfl

/-- C3 (witness): a sample whose power, performance, utilization and
temperature queries are unsupported but whose memory query succeeds publishes
all 5 metric topics, and its power value is the zero sentinel. -/
theorem c3_amended_witness :
    (monitorDeviceTask c1Device qC3w).map Prod.fst =
      sensorOrder.map (fun mt => publishStateTopic (GetDeviceID c1Device) (metricKey mt)) ∧
    mC3w.PowerDraw = 0 :=
  ⟨(c3_amended c1Device qC3w mC3w rfl).1, (c3_amended c1Device qC3w mC3w rfl).2 rfl⟩

/-- C7 (counterexample): two devices with the same bus location and different
hardware identifiers that agree on the first 8 characters after hyphen
stripping receive the same short-id. -/
theorem c7_counterexample :
    d7a.UUID ≠ d7b.UUID ∧ d7a.PCIBusID = d7b.PCIBusID ∧
    GetDeviceID d7a = GetDeviceID d7b := by decide

/-- C7 (amended): two devices with the same bus location get different
short-ids exactly when the lowercased 8-character suffixes of their
hyphen-stripped hardware identifiers differ. -/
theorem c7_amended (d1 d2 : GPUDevice) (hbus : d1.PCIBusID = d2.PCIBusID)
    (hsfx : goToLower (uuidSfx d1.UUID) ≠ goToLower (uuidSfx d2.UUID)) :
    GetDeviceID d1 ≠ GetDeviceID d2 := by
  intro heq
  apply hsfx
  unfold GetDeviceID at heq
  rw [hbus] at heq
  simp only [goToLower, List.map_append, List.map_cons] at heq
  have htail := List.append_cancel_left heq
  injection htail with h1 h2

/-- C7 (witness): same bus location, genuinely different suffixes, different
short-ids. -/
theorem c7_amended_witness : GetDeviceID d7a ≠ GetDeviceID d7c :=
  c7_amended d7a d7c (by decide) (by decide)

/-- ASCII lowercasing never produces an uppercase letter. -/
theorem toLowerB_not_upper (b : Nat) : ¬(65 ≤ toLowerB b ∧ toLowerB b ≤ 90) := by
  unfold toLowerB
  split <;> omega

/-- ASCII lowercasing fixes every character code below 97. -/
theorem toLowerB_fix_low {b c : Nat} (hc : c < 97) (h : toLowerB b = c) : b = c := by
  unfold toLowerB at h
  split at h <;> omega

/-- Every character of the id suffix comes from the hardware identifier. -/
theorem uuidSfx_subset (u : GoStr) : ∀ a ∈ uuidSfx u, a ∈ u := by
  intro a ha
  simp only [uuidSfx, goRemoveAll] at ha
  split at ha
  · exact List.filter_subset' _ (List.take_subset _ _ ha)
  · exact List.filter_subset' _ ha

/-- Characters of the punctuation-sanitized bus part are never a colon or a
dot. -/
theorem mem_busPart (s : GoStr) (a : Nat)
    (ha : a ∈ goReplaceAll (Char.toNat '.') (Char.toNat '_')
      (goReplaceAll (Char.toNat ':') (Char.toNat '_') s)) :
    a ≠ Char.toNat ':' ∧ a ≠ Char.toNat '.' := by
  have h58 : Char.toNat ':' = 58 := rfl
  have h46 : Char.toNat '.' = 46 := rfl
  have h95 : Char.toNat '_' = 95 := rfl
  simp only [goReplaceAll, List.mem_map, h58, h46, h95] at ha
  obtain ⟨b, ⟨c, hc, hcb⟩, hba⟩ := ha
  rw [h58, h46]
  split at hcb <;> split at hba <;> omega

/-- C8 (counterexample): a device whose hardware identifier contains a colon
and a dot produces a short-id containing both characters. -/
theorem c8_counterexample :
    Char.toNat ':' ∈ GetDeviceID d8bad ∧ Char.toNat '.' ∈ GetDeviceID d8bad := by decide

/-- C8 (amended): for every device whose hardware identifier is free of colon
and dot characters (as real NVML identifiers are), GetDeviceID is
deterministic, contains no uppercase ASCII letter, and contains no colon and
no dot. -/
theorem c8_amended (d : GPUDevice)
    (hc : Char.toNat ':' ∉ d.UUID) (hd : Char.toNat '.' ∉ d.UUID) :
    GetDeviceID d = GetDeviceID d ∧
    (∀ b ∈ GetDeviceID d, ¬(65 ≤ b ∧ b ≤ 90)) ∧
    Char.toNat ':' ∉ GetDeviceID d ∧
    Char.toNat '.' ∉ GetDeviceID d := by
  refine ⟨rfl, ?_, ?_, ?_⟩
  · intro b hb
    simp only [GetDeviceID, goToLower, List.mem_map] at hb
    obtain ⟨a, _, ha⟩ := hb
    rw [← ha]
    exact toLowerB_not_upper a
  · intro hmem
    simp only [GetDeviceID, goToLower, List.mem_map] at hmem
    obtain ⟨a, hamem, ha⟩ := hmem
    have ha58 : a = Char.toNat ':' := toLowerB_fix_low (by decide) ha
    rw [ha58] at hamem
    rcases List.mem_append.mp hamem with h | h
    · exact (mem_busPart _ _ h).1 rfl
    · rcases List.mem_cons.mp h with h2 | h2
      · exact absurd h2 (by decide)
      · exact hc (uuidSfx_subset _ _ h2)
  · intro hmem
    simp only [GetDeviceID, goToLower, List.mem_map] at hmem
    obtain ⟨a, hamem, ha⟩ := hmem
    have ha46 : a = Char.toNat '.' := toLowerB_fix_low (by decide) ha
    rw [ha46] at hamem
    rcases List.mem_append.mp hamem with h | h
    · exact (mem_busPart _ _ h).2 rfl
    · rcases List.mem_cons.mp h with h2 | h2
      · exact absurd h2 (by decide)
      · exact hd (uuidSfx_subset _ _ h2)

/-- C8 (witness): a device with a well-formed hardware id gets a short-id
without colon or dot. -/
theorem c8_amended_witness :
    Char.toNat ':' ∉ GetDeviceID d8w ∧ Char.toNat '.' ∉ GetDeviceID d8w :=
  ⟨(c8_amended d8w (by decide) (by decide)).2.2.1,
    (c8_amended d8w (by decide) (by decide)).2.2.2⟩

/-- goHasPfx is preserved by mapping the same function over both strings. -/
theorem goHasPfx_map (f : Nat → Nat) :
    ∀ (s p : GoStr), goHasPfx s p = true → goHasPfx (s.map f) (p.map f) = true := by
  intro s
  induction s with
  | nil =>
    intro p h
    cases p with
    | nil => rfl
    | cons c p2 => simp [goHasPfx] at h
  | cons b s2 ih =>
    intro p h
    cases p with
    | nil => rfl
    | cons c p2 =>
      simp only [goHasPfx, Bool.and_eq_true, decide_eq_true_eq] at h
      simp only [List.map_cons, goHasPfx, Bool.and_eq_true, decide_eq_true_eq]
      exact ⟨congrArg f h.1, ih p2 h.2⟩

/-- C9 (counterexample): a model name carrying the vendor word in lowercase is
detected by the case-insensitive check but left unstripped, so the vendor name
appears twice in the display name. -/
theorem c9_counterexample :
    goHasPfx (goToUpper d9bad.Name) (strToGo ("NVIDIA ")) = true ∧
    GetDeviceDisplayName d9bad (strToGo ("SERVER1")) =
      strToGo ("SERVER1 00:04:00.0 - NVIDIA nvidia GeForce 0GB") := by decide

/-- C9 (amended): only a model name that starts with the vendor prefix exactly
as the uppercase NVIDIA followed by a space gets it stripped: the display name
then carries the model name with its first 7 characters removed, after the
single fixed vendor literal. -/
theorem c9_amended (d : GPUDevice) (hostname : GoStr)
    (h : goHasPfx d.Name (strToGo ("NVIDIA ")) = true) :
    GetDeviceDisplayName d hostname =
      hostname ++ Char.toNat ' ' :: GetShortPCIBusID d.PCIBusID
        ++ strToGo (" - NVIDIA ") ++ List.drop 7 d.Name
        ++ Char.toNat ' ' :: natDigits (roundGB d.Memory) ++ strToGo ("GB") := by
  have hup : goHasPfx (goToUpper d.Name) (strToGo ("NVIDIA ")) = true := by
    have h2 := goHasPfx_map toUpperB d.Name (strToGo ("NVIDIA ")) h
    have h3 : (strToGo ("NVIDIA ")).map toUpperB = strToGo ("NVIDIA ") := by decide
    rw [h3] at h2
    exact h2
  have hlen : (strToGo ("NVIDIA ")).length = 7 := by decide
  simp only [GetDeviceDisplayName, goTrimPfx, hup, h, if_true, hlen]

/-- C9 (witness): a model name with the exact uppercase vendor prefix has it
stripped in the display name. -/
theorem c9_amended_witness :
    GetDeviceDisplayName d9w (strToGo ("SERVER1")) =
      strToGo ("SERVER1") ++ Char.toNat ' ' :: GetShortPCIBusID d9w.PCIBusID
        ++ strToGo (" - NVIDIA ") ++ List.drop 7 d9w.Name
        ++ Char.toNat ' ' :: natDigits (roundGB d9w.Memory) ++ strToGo ("GB") :=
  c9_amended d9w (strToGo ("SERVER1")) (by decide)

/-- Hyphen removal distributes over concatenation. -/
theorem goRemoveAll_append (c : Nat) (a b : GoStr) :
    goRemoveAll c (a ++ b) = goRemoveAll c a ++ goRemoveAll c b := by
  simp [goRemoveAll, List.filter_append]

/-- The id suffix of any hardware identifier matching GPU-1a2b3c4d-... is
gpu1a2b3 before lowercasing: the 8 kept characters span the GPU prefix and
the first 5 hex digits. -/
theorem uuidSfx_c1 (uuidRest : GoStr) :
    uuidSfx (strToGo ("GPU-1a2b3c4d-") ++ uuidRest) = strToGo ("GPU1a2b3") := by
  have hfirst : goRemoveAll (Char.toNat '-') (strToGo ("GPU-1a2b3c4d-")) =
      strToGo ("GPU1a2b3c4d") := by decide
  simp only [uuidSfx, goRemoveAll_append, hfirst]
  rw [if_pos]
  · rw [List.take_append_eq_append_take]
    rw [(by decide : (strToGo ("GPU1a2b3c4d")).length = 11)]
    simp only [Nat.reduceSub]
    rw [(by decide : List.take 8 (strToGo ("GPU1a2b3c4d")) = strToGo ("GPU1a2b3"))]
    simp
  · rw [List.length_append, (by decide : (strToGo ("GPU1a2b3c4d")).length = 11)]
    omega

/-- The display name depends only on the model name, bus location and memory
fields of a device, not on its index or hardware identifier. -/
theorem displayName_fields_irrel (idx1 idx2 mem : Nat) (n busid host u1 u2 : GoStr) :
    GetDeviceDisplayName ⟨idx1, n, busid, mem, u1⟩ host =
      GetDeviceDisplayName ⟨idx2, n, busid, mem, u2⟩ host := rfl

/-- C1 (counterexample): for the scenario device the short-id does not begin
with 00_04_00_0_1a2b3c4d: the 8-character suffix kept from the hyphen-stripped
hardware identifier starts with its gpu prefix, not with the first hex
digits. -/
theorem c1_counterexample :
    goHasPfx (GetDeviceID c1Device) (strToGo ("00_04_00_0_1a2b3c4d")) = false ∧
    GetDeviceID c1Device = strToGo ("00_04_00_0_gpu1a2b3") := by decide

/-- C1 (amended): for every device with bus location 00000000:04:00.0 and
hardware identifier GPU-1a2b3c4d- followed by anything, and hostname SERVER1,
the short-id is 00_04_00_0_gpu1a2b3, and, with model name GeForce RTX 3080
and 10 GiB of memory, the display name is
SERVER1 00:04:00.0 - NVIDIA GeForce RTX 3080 10GB. -/
theorem c1_amended (idx mem : Nat) (uuidRest : GoStr) :
    GetDeviceID ⟨idx, strToGo ("GeForce RTX 3080"), strToGo ("00000000:04:00.0"),
      mem, strToGo ("GPU-1a2b3c4d-") ++ uuidRest⟩ = strToGo ("00_04_00_0_gpu1a2b3") ∧
    GetDeviceDisplayName ⟨idx, strToGo ("GeForce RTX 3080"), strToGo ("00000000:04:00.0"),
      10737418240, strToGo ("GPU-1a2b3c4d-") ++ uuidRest⟩ (strToGo ("SERVER1")) =
      strToGo ("SERVER1 00:04:00.0 - NVIDIA GeForce RTX 3080 10GB") := by
  constructor
  · simp only [GetDeviceID, uuidSfx_c1]
    decide
  · rw [displayName_fields_irrel idx 0 10737418240 (strToGo ("GeForce RTX 3080"))
      (strToGo ("00000000:04:00.0")) (strToGo ("SERVER1"))
      (strToGo ("GPU-1a2b3c4d-") ++ uuidRest) []]
    decide

/-- C1 (witness): the amended scenario evaluated at a concrete device. -/
theorem c1_amended_witness :
    GetDeviceID ⟨0, strToGo ("GeForce RTX 3080"), strToGo ("00000000:04:00.0"),
      10737418240, strToGo ("GPU-1a2b3c4d-") ++ strToGo ("5e6f-7890-abcd-ef1234567890")⟩ =
      strToGo ("00_04_00_0_gpu1a2b3") :=
  (c1_amended 0 10737418240 (strToGo ("5e6f-7890-abcd-ef1234567890"))).1

end NvmlGpuHa
